import Mathlib

/-!
Verification of the `surch` organization enumeration and dispatch
orchestrator (`surch/organization.py`).

The Python code is shallowly embedded: the `Organization` class becomes a
structure, its constructor and methods become pure functions that return an
outcome together with the ordered list of side effects (HTTP requests, disk
operations, collaborator dispatches) the Python code would perform.  The
external per-repository search collaborator (`repo.search`) is modelled by a
predicate saying for which repositories it raises.  Python 2 semantics is
used for `/` on integers (floor division), matching the source's era.
-/

/-- A repository descriptor: the two fields the orchestrator extracts from a
GitHub repository JSON object (`_parse_json_list_of_dict(['name', url_type])`
with the default `url_type='clone_url'`). -/
structure Repo where
  name : String
  clone_url : String
deriving DecidableEq, Repr

/-- HTTP basic-auth value passed by `requests.get(..., auth=auth)`:
`auth=False` (unauthenticated) or an explicit `(user, password)` pair. -/
inductive Auth where
  | noAuth : Auth
  | basic (user password : String) : Auth
deriving DecidableEq, Repr

/-- One observable side effect of the orchestrator, in program order. -/
inductive Event where
  /-- Models `os.makedirs(cloned_repos_path)` in `__init__`. -/
  | makedirs (path : String) : Event
  /-- Models `utils.handle_results_file(results_file_path, consolidate_log)` in
  `__init__`. -/
  | handleResultsFile (path : String) (consolidate : Bool) : Event
  /-- Models `requests.get(ORG_DETAILS_API_URL.format(item_type, organization),
  auth=auth)`: the account metadata request. -/
  | httpGetAccount (item_type organization : String) (auth : Auth) : Event
  /-- Models `requests.get(REPO_DETAILS_API_URL.format(...), auth=auth)`: one
  repository listing page. -/
  | httpGetPage (item_type organization : String) (page per_page : Nat)
      (auth : Auth) : Event
  /-- One invocation of the external collaborator `repo.search(...)` with the
  keyword arguments the dispatch loop passes. -/
  | dispatch (search_list : List String)
      (repo_url cloned_repo_dir results_dir : String)
      (print_result remove_cloned_dir consolidate_log : Bool) : Event
  /-- Models `utils.remove_repos_folder(path)` in the cleanup stage. -/
  | removeReposFolder (path : String) : Event
  /-- Models `utils.print_result(results_file_path)` in the reporting stage. -/
  | printResult (path : String) : Event
deriving DecidableEq, Repr

/-- How a run ends. -/
inductive Outcome where
  /-- fell off the end of `search` normally. -/
  | ok : Outcome
  /-- Models `sys.exit(code)`. -/
  | exited (code : Nat) : Outcome
  /-- Python `AttributeError` on reading a never-assigned attribute. -/
  | attributeError (attr : String) : Outcome
  /-- an exception raised by the external collaborator for the named
  repository, propagating out of the dispatch loop uncaught. -/
  | collaboratorError (repoName : String) : Outcome
deriving DecidableEq, Repr

/-- Models `os.path.join(a, b)`: a later absolute component discards the earlier
ones; otherwise the parts are joined with a separator. -/
def pathJoin (a b : String) : String :=
  if b.data.head? = some '/' then b
  else if a = "" then b
  else a ++ "/" ++ b

/-- Python truthiness of an optional string (`None` and `''` are falsy). -/
def truthyStr : Option String → Bool
  | none => false
  | some s => !(s == "")

/-- The synthetic GitHub directory service a run talks to. -/
structure Github where
  /-- whether the account metadata request succeeds (`False` models the
  `requests.codes.NOT_FOUND` status). -/
  found : Bool
  /-- the `public_repos` field of the account metadata response. -/
  public_repos : Nat
  /-- the full repository list the service would serve, page by page. -/
  allRepos : List Repo

/-- The repositories served on 1-indexed page `page` with `per_page` items
per page. -/
def Github.page (g : Github) (per_page page : Nat) : List Repo :=
  (g.allRepos.drop ((page - 1) * per_page)).take per_page

/-- The state of an `Organization` instance after `__init__`. -/
structure Organization where
  print_result : Bool
  search_list : List String
  organization : String
  results_dir : String
  repos_to_skip : List String
  repos_to_check : List String
  /-- Models `self.auth` -/
  auth : Bool
  /-- Models `self.git_user` / `self.git_password`, only assigned when `auth`. -/
  git_user : String
  git_password : String
  remove_cloned_dir : Bool
  /-- accumulated raw repository objects (`self.repository_data`). -/
  repository_data : List Repo
  /-- Models `self.repository_specific_data`; `none` models the attribute never
  having been assigned. -/
  repository_specific_data : Option (List Repo)
  results_file_path : String
  item_type : String
  cloned_repos_path : String
deriving Repr

/-- Shallow embedding of `Organization.__init__`.  Returns the constructed
state (or the `sys.exit` code) together with the side effects performed, in
order.  `fs_cloned_dir_exists` stands for `os.path.isdir(cloned_repos_path)`
at entry. -/
def Organization.init
    (search_list : List String) (organization : String)
    (git_user git_password : Option String)
    (print_result : Bool) (organization_flag : Bool)
    (repos_to_skip repos_to_check : List String)
    (consolidate_log : Bool)
    (cloned_repos_path : String) (results_dir : String)
    (remove_cloned_dir : Bool)
    (fs_cloned_dir_exists : Bool) :
    Except Nat Organization × List Event :=
  if repos_to_skip ≠ [] ∧ repos_to_check ≠ [] then
    (Except.error 1, [])
  else
    let auth := truthyStr git_user && truthyStr git_password
    let mkdirEvents :=
      if fs_cloned_dir_exists then [] else [Event.makedirs cloned_repos_path]
    let results_file_path :=
      pathJoin (pathJoin results_dir organization) "results.json"
    (Except.ok
      { print_result := print_result
        search_list := search_list
        organization := organization
        results_dir := results_dir
        repos_to_skip := repos_to_skip
        repos_to_check := repos_to_check
        auth := auth
        git_user := if auth then git_user.getD "" else ""
        git_password := if auth then git_password.getD "" else ""
        remove_cloned_dir := remove_cloned_dir
        repository_data := []
        repository_specific_data := none
        results_file_path := results_file_path
        item_type := if organization_flag then "orgs" else "users"
        cloned_repos_path := cloned_repos_path },
     mkdirEvents ++ [Event.handleResultsFile results_file_path consolidate_log])

/-- Modelled from the spec: `utils.handle_results_file` (module
`surch/utils.py` is not among the sources; only its call site is).  Given
whether a file already exists at the ledger path and the `consolidate` flag,
returns whether a file exists there afterwards: "If `consolidate` is false
and a file already exists at `path`, it is deleted.  If `consolidate` is
true, the existing file (if any) is left untouched." -/
def handle_results_file (fileExistsBefore consolidate : Bool) : Bool :=
  if consolidate then fileExistsBefore else false

/-- Shallow embedding of `Organization.get_github_repo_list` (with the
default `url_type='clone_url'`).  Mirrors the source faithfully: the page
loop sits INSIDE the `if (repository_number % repository_per_page) > 0`
block, and `repository_specific_data` is only assigned inside that loop.
`repository_number / repository_per_page` is Python 2 floor division. -/
def Organization.get_github_repo_list (o : Organization) (g : Github)
    (repository_per_page : Nat) :
    Except Nat Organization × List Event :=
  let auth :=
    if o.auth then Auth.basic o.git_user o.git_password else Auth.noAuth
  let accountEvent := Event.httpGetAccount o.item_type o.organization auth
  if !g.found then
    (Except.error 1, [accountEvent])
  else
    let repository_number := g.public_repos
    let last_page_number := repository_number / repository_per_page
    if repository_number % repository_per_page > 0 then
      -- `last_page_number += 2`; `for page_num in range(1, last_page_number)`
      let pages := List.range' 1 (last_page_number + 2 - 1)
      let pageEvents := pages.map fun p =>
        Event.httpGetPage o.item_type o.organization p repository_per_page auth
      let repository_data :=
        o.repository_data ++ (pages.map (g.page repository_per_page)).flatten
      (Except.ok
        { o with
          repository_data := repository_data
          repository_specific_data :=
            if pages.isEmpty then o.repository_specific_data
            else some repository_data },
       accountEvent :: pageEvents)
    else
      (Except.ok o, [accountEvent])

/-- Whether the dispatch loop's filter lets repository `r` through:
`if len(repos_to_check) > 0: name in repos_to_check
 else: name not in repos_to_skip`. -/
def selectedBy (repos_to_check repos_to_skip : List String) (r : Repo) : Bool :=
  if 0 < repos_to_check.length then repos_to_check.contains r.name
  else !repos_to_skip.contains r.name

/-- The `repo.search(...)` invocation event for repository `r`, as built at
both call sites of the dispatch loop. -/
def dispatchEvent (search_list : List String)
    (cloned_repo_dir results_dir : String) (r : Repo) : Event :=
  Event.dispatch search_list r.clone_url cloned_repo_dir results_dir
    false false true

/-- The dispatch loop of `Organization.search`: iterate the repository list,
invoking the collaborator on each repository passing the filter.
`collabFails r = true` means that invocation raises; the exception is not
caught, so the loop stops there.  Returns the dispatch events performed and
the repository whose dispatch raised, if any. -/
def dispatchLoop (collabFails : Repo → Bool) (search_list : List String)
    (cloned_repo_dir results_dir : String)
    (repos_to_check repos_to_skip : List String) :
    List Repo → List Event × Option Repo
  | [] => ([], none)
  | r :: rs =>
    if selectedBy repos_to_check repos_to_skip r then
      let ev := dispatchEvent search_list cloned_repo_dir results_dir r
      if collabFails r then ([ev], some r)
      else
        let rest := dispatchLoop collabFails search_list cloned_repo_dir
          results_dir repos_to_check repos_to_skip rs
        (ev :: rest.1, rest.2)
    else
      dispatchLoop collabFails search_list cloned_repo_dir results_dir
        repos_to_check repos_to_skip rs

/-- The search list `Organization.search` ends up using
(`search_list = search_list or self.search_list`). -/
def searchSL (o : Organization) (sl : List String) : List String :=
  if sl.isEmpty then o.search_list else sl

/-- The part of `Organization.search` after the empty-search-list guard:
enumeration, dispatch loop, cleanup, reporting.  Split out of
`Organization.search` so proofs can reason about it with the effective
search list already resolved. -/
def Organization.searchBody (o : Organization) (g : Github)
    (collabFails : Repo → Bool) (search_list : List String) :
    Outcome × List Event :=
  match o.get_github_repo_list g 100 with
    | (Except.error code, evs) => (Outcome.exited code, evs)
    | (Except.ok o', evs) =>
      -- self.cloned_repos_path = os.path.join(self.organization,
      --                                       self.cloned_repos_path)
      let cloned_repos_path := pathJoin o'.organization o'.cloned_repos_path
      match o'.repository_specific_data with
      | none => (Outcome.attributeError "repository_specific_data", evs)
      | some repos =>
        let (dispatchEvents, failure) :=
          dispatchLoop collabFails search_list cloned_repos_path
            o'.results_dir o'.repos_to_check o'.repos_to_skip repos
        match failure with
        | some r => (Outcome.collaboratorError r.name, evs ++ dispatchEvents)
        | none =>
          let cleanupEvents :=
            (if o'.remove_cloned_dir
              then [Event.removeReposFolder cloned_repos_path] else []) ++
            (if o'.print_result
              then [Event.printResult o'.results_file_path] else [])
          (Outcome.ok, evs ++ dispatchEvents ++ cleanupEvents)

/-- Shallow embedding of `Organization.search`.  `g` is the GitHub service,
`collabFails` says for which repositories the external `repo.search`
raises. -/
def Organization.search (o : Organization) (g : Github)
    (collabFails : Repo → Bool) (search_list_arg : List String) :
    Outcome × List Event :=
  let search_list :=
    if search_list_arg.isEmpty then o.search_list else search_list_arg
  if search_list.length = 0 then
    (Outcome.exited 1, [])
  else
    o.searchBody g collabFails search_list

/-- The module-level `organization.search` flow without a config file:
construct an `Organization`, then call its `search` method with the same
search list.  `consolidate_log` is exposed because the config-file path
(`init_with_config_file`) can set it; the CLI path leaves it `false`. -/
def runSearch (g : Github) (collabFails : Repo → Bool)
    (search_list : List String) (organization : String)
    (git_user git_password : Option String)
    (repos_to_skip repos_to_check : List String)
    (organization_flag : Bool) (consolidate_log : Bool)
    (cloned_repos_path results_dir : String)
    (print_result remove_cloned_dir : Bool)
    (fs_cloned_dir_exists : Bool) :
    Outcome × List Event :=
  match Organization.init search_list organization git_user git_password
      print_result organization_flag repos_to_skip repos_to_check
      consolidate_log cloned_repos_path results_dir remove_cloned_dir
      fs_cloned_dir_exists with
  | (Except.error code, evs) => (Outcome.exited code, evs)
  | (Except.ok o, evs) =>
    let (outcome, evs') := o.search g collabFails search_list
    (outcome, evs ++ evs')

/-- Event classifiers used by the claims. -/
def Event.isHttp : Event → Bool
  | .httpGetAccount .. => true
  | .httpGetPage .. => true
  | _ => false

def Event.isPage : Event → Bool
  | .httpGetPage .. => true
  | _ => false

def Event.isDispatch : Event → Bool
  | .dispatch .. => true
  | _ => false

def Event.isDiskIO : Event → Bool
  | .makedirs .. => true
  | .handleResultsFile .. => true
  | .removeReposFolder .. => true
  | .printResult .. => true
  | _ => false

def Event.isHandleResults : Event → Bool
  | .handleResultsFile .. => true
  | _ => false

/-- The auth value an HTTP event carries, if it is an HTTP event. -/
def Event.authOf : Event → Option Auth
  | .httpGetAccount _ _ a => some a
  | .httpGetPage _ _ _ _ a => some a
  | _ => none

/-! ## Helper characterizations -/

/-- The auth value all HTTP requests of `get_github_repo_list` carry. -/
def Organization.requestAuth (o : Organization) : Auth :=
  if o.auth then Auth.basic o.git_user o.git_password else Auth.noAuth

/-- The account metadata request event of `get_github_repo_list`. -/
def accountEvent (o : Organization) : Event :=
  Event.httpGetAccount o.item_type o.organization o.requestAuth

/-- The page numbers `range(1, last_page_number)` iterates over in the
`repository_number % per_page > 0` branch. -/
def pageNums (repository_number per_page : Nat) : List Nat :=
  List.range' 1 (repository_number / per_page + 1)

/-- The repositories `get_github_repo_list` accumulates in the
`repository_number % per_page > 0` branch. -/
def fetchedRepos (g : Github) (per_page : Nat) : List Repo :=
  ((pageNums g.public_repos per_page).map (g.page per_page)).flatten

theorem get_repo_list_not_found (o : Organization) (g : Github) (pp : Nat)
    (hg : g.found = false) :
    o.get_github_repo_list g pp = (Except.error 1, [accountEvent o]) := by
  simp [Organization.get_github_repo_list, hg, accountEvent,
    Organization.requestAuth]

theorem get_repo_list_mod_zero (o : Organization) (g : Github) (pp : Nat)
    (hg : g.found = true) (hmod : g.public_repos % pp = 0) :
    o.get_github_repo_list g pp = (Except.ok o, [accountEvent o]) := by
  simp [Organization.get_github_repo_list, hg, hmod, accountEvent,
    Organization.requestAuth]

theorem get_repo_list_mod_pos (o : Organization) (g : Github) (pp : Nat)
    (hg : g.found = true) (hmod : 0 < g.public_repos % pp) :
    o.get_github_repo_list g pp =
      (Except.ok
        { o with
          repository_data := o.repository_data ++ fetchedRepos g pp
          repository_specific_data :=
            some (o.repository_data ++ fetchedRepos g pp) },
       accountEvent o ::
         (pageNums g.public_repos pp).map fun p =>
           Event.httpGetPage o.item_type o.organization p pp o.requestAuth) := by
  have hne : (List.range' 1 (g.public_repos / pp + 2 - 1)).isEmpty = false := by
    simp [List.isEmpty_iff, List.range'_eq_nil]
  simp only [Organization.get_github_repo_list, hg, hmod, Bool.not_true,
    if_pos, accountEvent, Organization.requestAuth]
  simp [hne, fetchedRepos, pageNums, Nat.add_sub_cancel]

/-- Closed form of the dispatch loop: it dispatches the selected
repositories up to and including the first one on which the collaborator
raises (all of them when none raises), and reports that first failing
repository. -/
theorem dispatchLoop_eq (f : Repo → Bool) (sl : List String)
    (cd rd : String) (check skip : List String) (rs : List Repo) :
    dispatchLoop f sl cd rd check skip rs =
      ((((rs.filter (selectedBy check skip)).takeWhile fun r => !f r)
          ++ (((rs.filter (selectedBy check skip)).dropWhile fun r => !f r).take 1)).map
          (dispatchEvent sl cd rd),
       ((rs.filter (selectedBy check skip)).dropWhile fun r => !f r).head?) := by
  induction rs with
  | nil => simp [dispatchLoop]
  | cons r rs ih =>
    cases hs : selectedBy check skip r with
    | false => simp [dispatchLoop, hs, List.filter_cons, ih]
    | true =>
      cases hf : f r with
      | true => simp [dispatchLoop, hs, hf, List.filter_cons]
      | false => simp [dispatchLoop, hs, hf, List.filter_cons, ih]

/-- Unfolding of `Organization.search` as a guard over `searchBody`. -/
theorem search_eq (o : Organization) (g : Github) (f : Repo → Bool)
    (sl : List String) :
    o.search g f sl =
      if (searchSL o sl).length = 0 then (Outcome.exited 1, [])
      else o.searchBody g f (searchSL o sl) := rfl

theorem search_exit_empty (o : Organization) (g : Github) (f : Repo → Bool)
    (sl : List String) (hsl : searchSL o sl = []) :
    o.search g f sl = (Outcome.exited 1, []) := by
  rw [search_eq, if_pos (by rw [hsl]; rfl)]

theorem search_not_found_eq (o : Organization) (g : Github) (f : Repo → Bool)
    (sl : List String) (hsl : searchSL o sl ≠ [])
    (hg : g.found = false) :
    o.search g f sl = (Outcome.exited 1, [accountEvent o]) := by
  rw [search_eq, if_neg (by simpa using hsl)]
  unfold Organization.searchBody
  rw [get_repo_list_not_found o g 100 hg]

theorem search_mod_zero_eq (o : Organization) (g : Github) (f : Repo → Bool)
    (sl : List String) (hsl : searchSL o sl ≠ [])
    (hg : g.found = true) (hmod : g.public_repos % 100 = 0)
    (hspec : o.repository_specific_data = none) :
    o.search g f sl =
      (Outcome.attributeError "repository_specific_data", [accountEvent o]) := by
  rw [search_eq, if_neg (by simpa using hsl)]
  unfold Organization.searchBody
  rw [get_repo_list_mod_zero o g 100 hg hmod]
  simp [hspec]

/-- The page-listing request events of `get_github_repo_list` in the
`repository_number % per_page > 0` branch. -/
def pageEvents (o : Organization) (g : Github) (pp : Nat) : List Event :=
  (pageNums g.public_repos pp).map fun p =>
    Event.httpGetPage o.item_type o.organization p pp o.requestAuth

/-- The directory the dispatch loop hands to every collaborator call:
`os.path.join(self.organization, self.cloned_repos_path)`. -/
def clonedDir (o : Organization) : String :=
  pathJoin o.organization o.cloned_repos_path

/-- The repositories the dispatch loop lets through the include/exclude
filter, out of everything `get_github_repo_list` fetched. -/
def selRepos (o : Organization) (g : Github) : List Repo :=
  (fetchedRepos g 100).filter (selectedBy o.repos_to_check o.repos_to_skip)

/-- Closed form of `Organization.search` in the reachable dispatching case
(`repository_number % 100 > 0`): the HTTP events, then the dispatches up to
and including the first collaborator failure (all of them, then cleanup,
when none fails). -/
theorem search_dispatch_eq (o : Organization) (g : Github) (f : Repo → Bool)
    (sl : List String) (hsl : searchSL o sl ≠ [])
    (hg : g.found = true) (hmod : 0 < g.public_repos % 100)
    (hdata : o.repository_data = []) :
    o.search g f sl =
      match ((selRepos o g).dropWhile fun r => !f r).head? with
      | some r =>
        (Outcome.collaboratorError r.name,
         (accountEvent o :: pageEvents o g 100) ++
           (((selRepos o g).takeWhile fun r => !f r) ++ [r]).map
             (dispatchEvent (searchSL o sl) (clonedDir o) o.results_dir))
      | none =>
        (Outcome.ok,
         (accountEvent o :: pageEvents o g 100) ++
           (selRepos o g).map
             (dispatchEvent (searchSL o sl) (clonedDir o) o.results_dir) ++
           ((if o.remove_cloned_dir
              then [Event.removeReposFolder (clonedDir o)] else []) ++
            (if o.print_result
              then [Event.printResult o.results_file_path] else []))) := by
  rw [search_eq, if_neg (by simpa using hsl)]
  unfold Organization.searchBody
  rw [get_repo_list_mod_pos o g 100 hg hmod]
  simp only [hdata, List.nil_append]
  rw [dispatchLoop_eq]
  cases hh : (((fetchedRepos g 100).filter
      (selectedBy o.repos_to_check o.repos_to_skip)).dropWhile
        fun r => !f r).head? with
  | some r =>
    obtain ⟨t, ht⟩ : ∃ t, (((fetchedRepos g 100).filter
        (selectedBy o.repos_to_check o.repos_to_skip)).dropWhile
          fun r => !f r) = r :: t := by
      cases hc : ((fetchedRepos g 100).filter
          (selectedBy o.repos_to_check o.repos_to_skip)).dropWhile
            fun r => !f r with
      | nil => rw [hc] at hh; simp at hh
      | cons x t =>
        rw [hc] at hh
        simp at hh
        exact ⟨t, by rw [hh]⟩
    simp [selRepos, clonedDir, pageEvents, hh, ht]
  | none =>
    have hdw : ((fetchedRepos g 100).filter
        (selectedBy o.repos_to_check o.repos_to_skip)).dropWhile
          (fun r => !f r) = [] := by
      simpa using hh
    have htw : ((fetchedRepos g 100).filter
        (selectedBy o.repos_to_check o.repos_to_skip)).takeWhile
          (fun r => !f r)
        = (fetchedRepos g 100).filter
            (selectedBy o.repos_to_check o.repos_to_skip) := by
      have h2 := List.takeWhile_append_dropWhile (fun r => !f r)
        ((fetchedRepos g 100).filter (selectedBy o.repos_to_check o.repos_to_skip))
      rw [hdw, List.append_nil] at h2
      exact h2
    simp [selRepos, clonedDir, pageEvents, hh, hdw, htw]

/-- The disk events `__init__` performs when construction succeeds. -/
def initEventList (organization : String) (consolidate_log : Bool)
    (cloned_repos_path results_dir : String) (fs_cloned_dir_exists : Bool) :
    List Event :=
  (if fs_cloned_dir_exists then [] else [Event.makedirs cloned_repos_path]) ++
    [Event.handleResultsFile
      (pathJoin (pathJoin results_dir organization) "results.json")
      consolidate_log]

/-- The `Organization` state `__init__` constructs when it does not exit. -/
def initOrg (search_list : List String) (organization : String)
    (git_user git_password : Option String)
    (print_result organization_flag : Bool)
    (repos_to_skip repos_to_check : List String)
    (cloned_repos_path results_dir : String)
    (remove_cloned_dir : Bool) : Organization :=
  { print_result := print_result
    search_list := search_list
    organization := organization
    results_dir := results_dir
    repos_to_skip := repos_to_skip
    repos_to_check := repos_to_check
    auth := truthyStr git_user && truthyStr git_password
    git_user := if truthyStr git_user && truthyStr git_password
      then git_user.getD "" else ""
    git_password := if truthyStr git_user && truthyStr git_password
      then git_password.getD "" else ""
    remove_cloned_dir := remove_cloned_dir
    repository_data := []
    repository_specific_data := none
    results_file_path :=
      pathJoin (pathJoin results_dir organization) "results.json"
    item_type := if organization_flag then "orgs" else "users"
    cloned_repos_path := cloned_repos_path }

theorem init_conflict (search_list : List String) (organization : String)
    (git_user git_password : Option String)
    (print_result organization_flag : Bool)
    (repos_to_skip repos_to_check : List String)
    (consolidate_log : Bool) (cloned_repos_path results_dir : String)
    (remove_cloned_dir fs_cloned_dir_exists : Bool)
    (h : repos_to_skip ≠ [] ∧ repos_to_check ≠ []) :
    Organization.init search_list organization git_user git_password
        print_result organization_flag repos_to_skip repos_to_check
        consolidate_log cloned_repos_path results_dir remove_cloned_dir
        fs_cloned_dir_exists
      = (Except.error 1, []) := by
  simp [Organization.init, h.1, h.2]

theorem init_ok (search_list : List String) (organization : String)
    (git_user git_password : Option String)
    (print_result organization_flag : Bool)
    (repos_to_skip repos_to_check : List String)
    (consolidate_log : Bool) (cloned_repos_path results_dir : String)
    (remove_cloned_dir fs_cloned_dir_exists : Bool)
    (h : ¬(repos_to_skip ≠ [] ∧ repos_to_check ≠ [])) :
    Organization.init search_list organization git_user git_password
        print_result organization_flag repos_to_skip repos_to_check
        consolidate_log cloned_repos_path results_dir remove_cloned_dir
        fs_cloned_dir_exists
      = (Except.ok
          (initOrg search_list organization git_user git_password
            print_result organization_flag repos_to_skip repos_to_check
            cloned_repos_path results_dir remove_cloned_dir),
         initEventList organization consolidate_log cloned_repos_path
           results_dir fs_cloned_dir_exists) := by
  rw [Organization.init, if_neg h]
  rfl

/-- Unfolding of `runSearch` after a successful construction: the init events followed by
the `search` method's events. -/
theorem runSearch_ok (g : Github) (f : Repo → Bool)
    (search_list : List String) (organization : String)
    (git_user git_password : Option String)
    (repos_to_skip repos_to_check : List String)
    (organization_flag consolidate_log : Bool)
    (cloned_repos_path results_dir : String)
    (print_result remove_cloned_dir fs_cloned_dir_exists : Bool)
    (h : ¬(repos_to_skip ≠ [] ∧ repos_to_check ≠ [])) :
    runSearch g f search_list organization git_user git_password
        repos_to_skip repos_to_check organization_flag consolidate_log
        cloned_repos_path results_dir print_result remove_cloned_dir
        fs_cloned_dir_exists
      = ((Organization.search (initOrg search_list organization git_user
            git_password print_result organization_flag repos_to_skip
            repos_to_check cloned_repos_path results_dir remove_cloned_dir)
            g f search_list).1,
         initEventList organization consolidate_log cloned_repos_path
             results_dir fs_cloned_dir_exists ++
           (Organization.search (initOrg search_list organization git_user
             git_password print_result organization_flag repos_to_skip
             repos_to_check cloned_repos_path results_dir remove_cloned_dir)
             g f search_list).2) := by
  rw [runSearch, init_ok search_list organization git_user git_password
    print_result organization_flag repos_to_skip repos_to_check
    consolidate_log cloned_repos_path results_dir remove_cloned_dir
    fs_cloned_dir_exists h]

/-- Enumeration (`get_github_repo_list`) only touches the repository-data fields: all
configuration fields survive unchanged. -/
theorem get_repo_list_preserves (o : Organization) (g : Github) (pp : Nat)
    (o' : Organization) (evs : List Event)
    (h : o.get_github_repo_list g pp = (Except.ok o', evs)) :
    o'.organization = o.organization ∧
    o'.cloned_repos_path = o.cloned_repos_path ∧
    o'.results_dir = o.results_dir ∧
    o'.results_file_path = o.results_file_path ∧
    o'.repos_to_check = o.repos_to_check ∧
    o'.repos_to_skip = o.repos_to_skip ∧
    o'.remove_cloned_dir = o.remove_cloned_dir ∧
    o'.print_result = o.print_result ∧
    o'.search_list = o.search_list := by
  simp only [Organization.get_github_repo_list] at h
  split at h
  · simp at h
  · split at h
    · simp only [Prod.mk.injEq, Except.ok.injEq] at h
      obtain ⟨h1, h2⟩ := h
      subst h1
      simp
    · simp only [Prod.mk.injEq, Except.ok.injEq] at h
      obtain ⟨h1, h2⟩ := h
      subst h1
      simp

/-- Every event of `get_github_repo_list` is an HTTP request carrying the
instance's auth value. -/
theorem get_repo_list_events_auth (o : Organization) (g : Github) (pp : Nat) :
    ∀ e ∈ (o.get_github_repo_list g pp).2,
      e.isHttp = true ∧ e.authOf = some o.requestAuth := by
  intro e he
  simp only [Organization.get_github_repo_list] at he
  split at he
  · simp at he
    subst he
    exact ⟨rfl, rfl⟩
  · split at he
    · simp at he
      rcases he with he | ⟨p, hp, he⟩ <;> subst he <;>
        exact ⟨rfl, by simp [Event.authOf, Organization.requestAuth]⟩
    · simp at he
      subst he
      exact ⟨rfl, rfl⟩



/-- Every dispatch-loop event is a collaborator invocation with the loop's
fixed arguments. -/
theorem dispatchLoop_mem (f : Repo → Bool) (sl : List String) (cd rd : String)
    (check skip : List String) (rs : List Repo) :
    ∀ e ∈ (dispatchLoop f sl cd rd check skip rs).1,
      ∃ r, e = dispatchEvent sl cd rd r := by
  induction rs with
  | nil => simp [dispatchLoop]
  | cons r rs ih =>
    intro e he
    cases hs : selectedBy check skip r with
    | false =>
      rw [dispatchLoop, hs] at he
      simp only [Bool.false_eq_true, if_false] at he
      exact ih e he
    | true =>
      cases hf : f r with
      | true =>
        rw [dispatchLoop, hs] at he
        simp only [hf, if_true, List.mem_singleton] at he
        exact ⟨r, he⟩
      | false =>
        rw [dispatchLoop, hs] at he
        simp only [hf, if_true, Bool.false_eq_true, if_false,
          List.mem_cons] at he
        rcases he with he | he
        · exact ⟨r, he⟩
        · exact ih e he

/-- The module-level flow hands the same list to `__init__` and to
`search`, so the effective search list is just that list. -/
theorem searchSL_initOrg (sl : List String) (org : String)
    (u p : Option String) (pr oflag : Bool) (skip check : List String)
    (cp rd : String) (rm : Bool) :
    searchSL (initOrg sl org u p pr oflag skip check cp rd rm) sl = sl := by
  cases sl <;> rfl

/-- Construction-time events are disk operations, not HTTP or dispatch. -/
theorem initEventList_events (org : String) (c : Bool) (cp rd : String)
    (fse : Bool) :
    ∀ e ∈ initEventList org c cp rd fse,
      e.isHttp = false ∧ e.isPage = false ∧ e.isDispatch = false := by
  intro e he
  cases fse with
  | false =>
    simp [initEventList] at he
    rcases he with he | he <;> subst he <;> exact ⟨rfl, rfl, rfl⟩
  | true =>
    simp [initEventList] at he
    subst he
    exact ⟨rfl, rfl, rfl⟩

/-- Every page-listing event is an `httpGetPage` with the instance's auth. -/
theorem pageEvents_mem (o : Organization) (g : Github) (pp : Nat) :
    ∀ e ∈ pageEvents o g pp, ∃ p,
      e = Event.httpGetPage o.item_type o.organization p pp o.requestAuth := by
  intro e he
  simp [pageEvents] at he
  obtain ⟨p, hp, he⟩ := he
  exact ⟨p, he.symm⟩

/-! ## Claims -/

/-- C3: for every construction of a run with both a non-empty include set
(`repos_to_check`) and a non-empty exclude set (`repos_to_skip`),
construction fails with exit code 1 and the run performs no side effect at
all — in particular, no HTTP request is ever issued. -/
theorem c3_conflicting_filters_fail_fast (g : Github) (f : Repo → Bool)
    (search_list : List String) (organization : String)
    (git_user git_password : Option String)
    (repos_to_skip repos_to_check : List String)
    (organization_flag consolidate_log : Bool)
    (cloned_repos_path results_dir : String)
    (print_result remove_cloned_dir fs_cloned_dir_exists : Bool)
    (hskip : repos_to_skip ≠ []) (hcheck : repos_to_check ≠ []) :
    runSearch g f search_list organization git_user git_password
        repos_to_skip repos_to_check organization_flag consolidate_log
        cloned_repos_path results_dir print_result remove_cloned_dir
        fs_cloned_dir_exists
      = (Outcome.exited 1, []) := by
  rw [runSearch, init_conflict _ _ _ _ _ _ _ _ _ _ _ _ _ ⟨hskip, hcheck⟩]

/-- Witness for C3 at a concrete input. -/
theorem c3_conflicting_filters_fail_fast_witness :
    runSearch ⟨true, 1, [⟨"a", "ua"⟩]⟩ (fun _ => false) ["pass"] "acme"
        none none ["skipme"] ["checkme"] true false "clones" "results"
        false false false
      = (Outcome.exited 1, []) :=
  c3_conflicting_filters_fail_fast _ _ _ _ _ _ _ _ _ _ _ _ _ _ _
    (by decide) (by decide)

/-- C7: for every run whose account metadata request reports the account as
not found, the run exits with code 1, and the trace contains no repository
page request and no dispatch. -/
theorem c7_account_not_found_aborts (g : Github) (f : Repo → Bool)
    (search_list : List String) (organization : String)
    (git_user git_password : Option String)
    (repos_to_skip repos_to_check : List String)
    (organization_flag consolidate_log : Bool)
    (cloned_repos_path results_dir : String)
    (print_result remove_cloned_dir fs_cloned_dir_exists : Bool)
    (hconf : ¬(repos_to_skip ≠ [] ∧ repos_to_check ≠ []))
    (hsl : search_list ≠ []) (hg : g.found = false) :
    (runSearch g f search_list organization git_user git_password
        repos_to_skip repos_to_check organization_flag consolidate_log
        cloned_repos_path results_dir print_result remove_cloned_dir
        fs_cloned_dir_exists).1 = Outcome.exited 1 ∧
    (runSearch g f search_list organization git_user git_password
        repos_to_skip repos_to_check organization_flag consolidate_log
        cloned_repos_path results_dir print_result remove_cloned_dir
        fs_cloned_dir_exists).2.filter Event.isPage = [] ∧
    (runSearch g f search_list organization git_user git_password
        repos_to_skip repos_to_check organization_flag consolidate_log
        cloned_repos_path results_dir print_result remove_cloned_dir
        fs_cloned_dir_exists).2.filter Event.isDispatch = [] := by
  rw [runSearch_ok _ _ _ _ _ _ _ _ _ _ _ _ _ _ _ hconf,
    search_not_found_eq _ _ _ _ (by rw [searchSL_initOrg]; exact hsl) hg]
  refine ⟨rfl, ?_, ?_⟩ <;>
    cases fs_cloned_dir_exists <;>
      simp [initEventList, accountEvent, Event.isPage, Event.isDispatch]

/-- Witness for C7 at a concrete input. -/
theorem c7_account_not_found_aborts_witness :
    (runSearch ⟨false, 5, []⟩ (fun _ => false) ["pass"] "ghost" none none
        [] [] true false "clones" "results" false false false).1
      = Outcome.exited 1 ∧
    (runSearch ⟨false, 5, []⟩ (fun _ => false) ["pass"] "ghost" none none
        [] [] true false "clones" "results" false false false).2.filter
        Event.isPage = [] ∧
    (runSearch ⟨false, 5, []⟩ (fun _ => false) ["pass"] "ghost" none none
        [] [] true false "clones" "results" false false false).2.filter
        Event.isDispatch = [] :=
  c7_account_not_found_aborts _ _ _ _ _ _ _ _ _ _ _ _ _ _ _
    (by decide) (by decide) rfl

/-- C10: for every account whose public repository count is an exact
multiple of the page size 100 (zero included), the page loop never runs,
`repository_specific_data` is never assigned, and `search` ends in an
`AttributeError` — no repository is dispatched and no page is fetched. -/
theorem c10_exact_multiple_attribute_error (g : Github) (f : Repo → Bool)
    (search_list : List String) (organization : String)
    (git_user git_password : Option String)
    (repos_to_skip repos_to_check : List String)
    (organization_flag consolidate_log : Bool)
    (cloned_repos_path results_dir : String)
    (print_result remove_cloned_dir fs_cloned_dir_exists : Bool)
    (hconf : ¬(repos_to_skip ≠ [] ∧ repos_to_check ≠ []))
    (hsl : search_list ≠ []) (hg : g.found = true)
    (hmod : g.public_repos % 100 = 0) :
    (runSearch g f search_list organization git_user git_password
        repos_to_skip repos_to_check organization_flag consolidate_log
        cloned_repos_path results_dir print_result remove_cloned_dir
        fs_cloned_dir_exists).1
      = Outcome.attributeError "repository_specific_data" ∧
    (runSearch g f search_list organization git_user git_password
        repos_to_skip repos_to_check organization_flag consolidate_log
        cloned_repos_path results_dir print_result remove_cloned_dir
        fs_cloned_dir_exists).2.filter Event.isDispatch = [] ∧
    (runSearch g f search_list organization git_user git_password
        repos_to_skip repos_to_check organization_flag consolidate_log
        cloned_repos_path results_dir print_result remove_cloned_dir
        fs_cloned_dir_exists).2.filter Event.isPage = [] := by
  rw [runSearch_ok _ _ _ _ _ _ _ _ _ _ _ _ _ _ _ hconf,
    search_mod_zero_eq _ _ _ _ (by rw [searchSL_initOrg]; exact hsl) hg hmod
      rfl]
  refine ⟨rfl, ?_, ?_⟩ <;>
    cases fs_cloned_dir_exists <;>
      simp [initEventList, accountEvent, Event.isPage, Event.isDispatch]

/-- Witness for C10 at a concrete input (an account with zero public
repositories). -/
theorem c10_exact_multiple_attribute_error_witness :
    (runSearch ⟨true, 0, []⟩ (fun _ => false) ["pass"] "acme" none none
        [] [] true false "clones" "results" false false false).1
      = Outcome.attributeError "repository_specific_data" ∧
    (runSearch ⟨true, 0, []⟩ (fun _ => false) ["pass"] "acme" none none
        [] [] true false "clones" "results" false false false).2.filter
        Event.isDispatch = [] ∧
    (runSearch ⟨true, 0, []⟩ (fun _ => false) ["pass"] "acme" none none
        [] [] true false "clones" "results" false false false).2.filter
        Event.isPage = [] :=
  c10_exact_multiple_attribute_error _ _ _ _ _ _ _ _ _ _ _ _ _ _ _
    (by decide) (by decide) rfl rfl

/-- C9: whenever the GitHub username or password is missing (Python-falsy;
this includes exactly one of the two being provided), `auth` is `False` and
every HTTP request of the run is sent unauthenticated — the lone provided
credential is never transmitted. -/
theorem c9_missing_credential_unauthenticated (g : Github) (f : Repo → Bool)
    (search_list : List String) (organization : String)
    (git_user git_password : Option String)
    (repos_to_skip repos_to_check : List String)
    (organization_flag consolidate_log : Bool)
    (cloned_repos_path results_dir : String)
    (print_result remove_cloned_dir fs_cloned_dir_exists : Bool)
    (hcred : truthyStr git_user = false ∨ truthyStr git_password = false) :
    ∀ e ∈ (runSearch g f search_list organization git_user git_password
        repos_to_skip repos_to_check organization_flag consolidate_log
        cloned_repos_path results_dir print_result remove_cloned_dir
        fs_cloned_dir_exists).2,
      e.isHttp = true → e.authOf = some Auth.noAuth := by
  intro e he hhttp
  by_cases hconf : repos_to_skip ≠ [] ∧ repos_to_check ≠ []
  · rw [runSearch, init_conflict _ _ _ _ _ _ _ _ _ _ _ _ _ hconf] at he
    simp at he
  · rw [runSearch_ok _ _ _ _ _ _ _ _ _ _ _ _ _ _ _ hconf] at he
    have hauth : (initOrg search_list organization git_user git_password
        print_result organization_flag repos_to_skip repos_to_check
        cloned_repos_path results_dir remove_cloned_dir).requestAuth
        = Auth.noAuth := by
      rcases hcred with h | h <;>
        simp [initOrg, Organization.requestAuth, h]
    simp only [List.mem_append] at he
    rcases he with he | he
    · have h3 := initEventList_events organization consolidate_log
        cloned_repos_path results_dir fs_cloned_dir_exists e he
      rw [h3.1] at hhttp
      cases hhttp
    · by_cases hslE : searchSL (initOrg search_list organization git_user
          git_password print_result organization_flag repos_to_skip
          repos_to_check cloned_repos_path results_dir remove_cloned_dir)
          search_list = []
      · rw [search_exit_empty _ _ _ _ hslE] at he
        simp at he
      · cases hgf : g.found with
        | false =>
          rw [search_not_found_eq _ _ _ _ hslE hgf] at he
          simp at he
          subst he
          simp [accountEvent, Event.authOf, hauth]
        | true =>
          by_cases hmod : 0 < g.public_repos % 100
          · rw [search_dispatch_eq _ _ _ _ hslE hgf hmod rfl] at he
            cases hh : ((selRepos (initOrg search_list organization git_user
                git_password print_result organization_flag repos_to_skip
                repos_to_check cloned_repos_path results_dir
                remove_cloned_dir) g).dropWhile fun r => !f r).head? with
            | some r₀ =>
              rw [hh] at he
              simp only [List.mem_append, List.mem_cons, List.mem_map] at he
              rcases he with (he | he) | ⟨r, hr, he⟩
              · subst he
                simp [accountEvent, Event.authOf, hauth]
              · rcases pageEvents_mem _ g 100 e he with ⟨p, rfl⟩
                simp [Event.authOf, hauth]
              · rw [← he] at hhttp
                cases hhttp
            | none =>
              rw [hh] at he
              simp only [List.mem_append, List.mem_cons, List.mem_map] at he
              rcases he with ((he | he) | ⟨r, hr, he⟩) | he
              · subst he
                simp [accountEvent, Event.authOf, hauth]
              · rcases pageEvents_mem _ g 100 e he with ⟨p, rfl⟩
                simp [Event.authOf, hauth]
              · rw [← he] at hhttp
                cases hhttp
              · rcases he with he | he <;>
                  (split at he <;>
                    simp only [List.mem_singleton, List.not_mem_nil] at he) <;>
                  (subst he; simp [Event.isHttp] at hhttp)
          · have hmz : g.public_repos % 100 = 0 :=
              Nat.eq_zero_of_not_pos hmod
            rw [search_mod_zero_eq _ _ _ _ hslE hgf hmz rfl] at he
            simp at he
            subst he
            simp [accountEvent, Event.authOf, hauth]

/-- Witness for C9: username provided, password missing; the account
request of the concrete run is unauthenticated. -/
theorem c9_missing_credential_unauthenticated_witness :
    (Event.httpGetAccount "orgs" "acme" Auth.noAuth).authOf
      = some Auth.noAuth :=
  c9_missing_credential_unauthenticated ⟨true, 1, [⟨"a", "ua"⟩]⟩
    (fun _ => false) ["pass"] "acme" (some "alice") none [] [] true false
    "clones" "results" false false true
    (Or.inr rfl)
    (Event.httpGetAccount "orgs" "acme" Auth.noAuth)
    (by decide)
    rfl

/-- C4 counterexample: a run constructed with an empty search-term set does
exit with code 1 before any network I/O, but only AFTER construction has
already performed disk I/O (clone-directory creation and results-ledger
preparation) — refuting "before any network or disk I/O is performed". -/
theorem c4_disk_io_precedes_empty_terms_exit :
    (runSearch ⟨true, 3, []⟩ (fun _ => false) [] "acme" none none [] []
        true false "clones" "results" false false false).1
      = Outcome.exited 1 ∧
    (runSearch ⟨true, 3, []⟩ (fun _ => false) [] "acme" none none [] []
        true false "clones" "results" false false false).2.filter
        Event.isDiskIO
      = [Event.makedirs "clones",
         Event.handleResultsFile "results/acme/results.json" false] := by
  exact ⟨rfl, by decide⟩

/-- C4 (amended): for every run configured with an empty search-term set
(and filters that pass construction), the run exits with code 1 before
enumeration begins — no HTTP request and no dispatch occurs — though the
construction-stage disk I/O has already happened. -/
theorem c4_empty_search_terms_no_network (g : Github) (f : Repo → Bool)
    (organization : String) (git_user git_password : Option String)
    (repos_to_skip repos_to_check : List String)
    (organization_flag consolidate_log : Bool)
    (cloned_repos_path results_dir : String)
    (print_result remove_cloned_dir fs_cloned_dir_exists : Bool)
    (hconf : ¬(repos_to_skip ≠ [] ∧ repos_to_check ≠ [])) :
    (runSearch g f [] organization git_user git_password
        repos_to_skip repos_to_check organization_flag consolidate_log
        cloned_repos_path results_dir print_result remove_cloned_dir
        fs_cloned_dir_exists).1 = Outcome.exited 1 ∧
    (runSearch g f [] organization git_user git_password
        repos_to_skip repos_to_check organization_flag consolidate_log
        cloned_repos_path results_dir print_result remove_cloned_dir
        fs_cloned_dir_exists).2.filter Event.isHttp = [] ∧
    (runSearch g f [] organization git_user git_password
        repos_to_skip repos_to_check organization_flag consolidate_log
        cloned_repos_path results_dir print_result remove_cloned_dir
        fs_cloned_dir_exists).2.filter Event.isDispatch = [] := by
  rw [runSearch_ok _ _ _ _ _ _ _ _ _ _ _ _ _ _ _ hconf,
    search_exit_empty _ _ _ _ (by rw [searchSL_initOrg])]
  refine ⟨rfl, ?_, ?_⟩ <;>
    cases fs_cloned_dir_exists <;>
      simp [initEventList, Event.isHttp, Event.isDispatch]

/-- Witness for the amended C4 at a concrete input. -/
theorem c4_empty_search_terms_no_network_witness :
    (runSearch ⟨true, 3, []⟩ (fun _ => true) [] "acme" none none [] []
        true true "clones" "results" true true true).1
      = Outcome.exited 1 ∧
    (runSearch ⟨true, 3, []⟩ (fun _ => true) [] "acme" none none [] []
        true true "clones" "results" true true true).2.filter
        Event.isHttp = [] ∧
    (runSearch ⟨true, 3, []⟩ (fun _ => true) [] "acme" none none [] []
        true true "clones" "results" true true true).2.filter
        Event.isDispatch = [] :=
  c4_empty_search_terms_no_network ⟨true, 3, []⟩ (fun _ => true) "acme"
    none none [] [] true true "clones" "results" true true true
    (by decide)

theorem takeWhile_const_true {α : Type} (l : List α) :
    l.takeWhile (fun _ => true) = l := by
  induction l with
  | nil => rfl
  | cons a l ih => simp [List.takeWhile_cons, ih]

theorem dropWhile_const_true {α : Type} (l : List α) :
    l.dropWhile (fun _ => true) = [] := by
  induction l with
  | nil => rfl
  | cons a l ih => simp [List.dropWhile_cons, ih]

/-- The loop's filter, as a function of which of the two sets is
non-empty. -/
theorem selectedBy_filter (check skip : List String) (repos : List Repo) :
    repos.filter (selectedBy check skip) =
      if check ≠ [] then repos.filter fun r => check.contains r.name
      else if skip ≠ [] then repos.filter fun r => !skip.contains r.name
      else repos := by
  by_cases hc : check = []
  · subst hc
    rw [if_neg (by simp)]
    by_cases hs : skip = []
    · subst hs
      rw [if_neg (by simp)]
      have h : ∀ r ∈ repos, selectedBy [] [] r = (fun _ : Repo => true) r :=
        fun r _ => rfl
      rw [List.filter_congr h, List.filter_true]
    · rw [if_pos hs]
      have h : ∀ r ∈ repos, selectedBy [] skip r
          = (fun r : Repo => !skip.contains r.name) r := fun r _ => rfl
      rw [List.filter_congr h]
  · rw [if_pos hc]
    have hlen : 0 < check.length := List.length_pos.mpr hc
    have h : ∀ r ∈ repos, selectedBy check skip r
        = (fun r : Repo => check.contains r.name) r := by
      intro r _
      simp [selectedBy, hlen]
    rw [List.filter_congr h]

/-- C5: with no collaborator failure, the dispatch loop invokes the
collaborator exactly for: the repositories whose name is in the include set
when that set is non-empty; else those whose name is not in the exclude
set when that set is non-empty; else all repositories — always in the
order of the fetched list (include names matching nothing simply select
nothing). -/
theorem c5_filter_semantics (sl : List String) (cd rd : String)
    (check skip : List String) (repos : List Repo) :
    (dispatchLoop (fun _ => false) sl cd rd check skip repos).1 =
      (if check ≠ [] then repos.filter fun r => check.contains r.name
       else if skip ≠ [] then repos.filter fun r => !skip.contains r.name
       else repos).map (dispatchEvent sl cd rd) := by
  rw [dispatchLoop_eq]
  simp only [Bool.not_false, takeWhile_const_true, dropWhile_const_true,
    List.take_nil, List.append_nil]
  rw [selectedBy_filter]

/-- C2 counterexample: account with repositories a, b, c and no filters;
the collaborator raises on b.  The run aborts with b's error: only a and b
are dispatched and c — a subsequent repository in the filtered list — is
never dispatched, refuting the claim that the loop records the failure and
continues. -/
theorem c2_counterexample_failure_stops_dispatch :
    (runSearch ⟨true, 3, [⟨"a", "ua"⟩, ⟨"b", "ub"⟩, ⟨"c", "uc"⟩]⟩
        (fun r => r.name == "b") ["t"] "acme" none none [] [] true false
        "clones" "results" false false true).1
      = Outcome.collaboratorError "b" ∧
    ((runSearch ⟨true, 3, [⟨"a", "ua"⟩, ⟨"b", "ub"⟩, ⟨"c", "uc"⟩]⟩
        (fun r => r.name == "b") ["t"] "acme" none none [] [] true false
        "clones" "results" false false true).2.filter
        Event.isDispatch).length = 2 ∧
    Event.dispatch ["t"] "uc" "acme/clones" "results" false false true
      ∉ (runSearch ⟨true, 3, [⟨"a", "ua"⟩, ⟨"b", "ub"⟩, ⟨"c", "uc"⟩]⟩
        (fun r => r.name == "b") ["t"] "acme" none none [] [] true false
        "clones" "results" false false true).2 := by
  refine ⟨by decide, by decide, by decide⟩

/-- C2 (amended): when the collaborator raises for some repository in the
filtered list, the dispatch loop aborts at the FIRST failing repository:
the exception becomes the run outcome (the failure is not silently
dropped), the selected repositories before it plus the failing one are
dispatched, and no subsequent repository is dispatched. -/
theorem c2_collaborator_failure_aborts_loop (o : Organization) (g : Github)
    (f : Repo → Bool) (sl : List String) (hsl : searchSL o sl ≠ [])
    (hg : g.found = true) (hmod : 0 < g.public_repos % 100)
    (hdata : o.repository_data = []) (r₀ : Repo)
    (hfail : ((selRepos o g).dropWhile fun r => !f r).head? = some r₀) :
    (o.search g f sl).1 = Outcome.collaboratorError r₀.name ∧
    (o.search g f sl).2.filter Event.isDispatch =
      (((selRepos o g).takeWhile fun r => !f r) ++ [r₀]).map
        (dispatchEvent (searchSL o sl) (clonedDir o) o.results_dir) := by
  rw [search_dispatch_eq o g f sl hsl hg hmod hdata, hfail]
  refine ⟨rfl, ?_⟩
  have h1 : (accountEvent o :: pageEvents o g 100).filter Event.isDispatch
      = [] := by
    simp [accountEvent, pageEvents, Event.isDispatch, List.filter_map,
      Function.comp]
  have h2 : ((((selRepos o g).takeWhile fun r => !f r) ++ [r₀]).map
      (dispatchEvent (searchSL o sl) (clonedDir o) o.results_dir)).filter
        Event.isDispatch
      = (((selRepos o g).takeWhile fun r => !f r) ++ [r₀]).map
        (dispatchEvent (searchSL o sl) (clonedDir o) o.results_dir) := by
    rw [List.filter_map]
    have hcomp : (Event.isDispatch ∘ dispatchEvent (searchSL o sl)
        (clonedDir o) o.results_dir) = fun _ : Repo => true :=
      funext fun r => rfl
    rw [hcomp, List.filter_true]
  rw [List.filter_append, h1, h2, List.nil_append]

/-- Witness for the amended C2: two repositories, the collaborator raises
on the second. -/
theorem c2_collaborator_failure_aborts_loop_witness :
    ((initOrg ["t"] "acme" none none false true [] [] "clones" "results"
        false).search ⟨true, 2, [⟨"a", "ua"⟩, ⟨"b", "ub"⟩]⟩
        (fun r => r.name == "b") ["t"]).1
      = Outcome.collaboratorError (Repo.mk "b" "ub").name ∧
    ((initOrg ["t"] "acme" none none false true [] [] "clones" "results"
        false).search ⟨true, 2, [⟨"a", "ua"⟩, ⟨"b", "ub"⟩]⟩
        (fun r => r.name == "b") ["t"]).2.filter Event.isDispatch =
      (((selRepos (initOrg ["t"] "acme" none none false true [] [] "clones"
          "results" false) ⟨true, 2, [⟨"a", "ua"⟩, ⟨"b", "ub"⟩]⟩).takeWhile
            fun r => !(r.name == "b")) ++ [Repo.mk "b" "ub"]).map
        (dispatchEvent
          (searchSL (initOrg ["t"] "acme" none none false true [] []
            "clones" "results" false) ["t"])
          (clonedDir (initOrg ["t"] "acme" none none false true [] []
            "clones" "results" false))
          (initOrg ["t"] "acme" none none false true [] [] "clones"
            "results" false).results_dir) :=
  c2_collaborator_failure_aborts_loop
    (initOrg ["t"] "acme" none none false true [] [] "clones" "results"
      false)
    ⟨true, 2, [⟨"a", "ua"⟩, ⟨"b", "ub"⟩]⟩ (fun r => r.name == "b") ["t"]
    (by decide) rfl (by decide) rfl (Repo.mk "b" "ub") (by decide)

/-- The `cloned_repo_dir` argument of each collaborator invocation in a
trace, in order. -/
def dispatchDirs (evs : List Event) : List String :=
  evs.filterMap fun e =>
    match e with
    | Event.dispatch _ _ d _ _ _ _ => some d
    | _ => none

/-- The `repo_url` argument of each collaborator invocation in a trace, in
order. -/
def dispatchUrls (evs : List Event) : List String :=
  evs.filterMap fun e =>
    match e with
    | Event.dispatch _ u _ _ _ _ _ => some u
    | _ => none

/-- C6 counterexample: two distinct repositories are both dispatched with
the SAME `cloned_repo_dir`, namely `os.path.join(organization,
cloned_repos_path) = "acme/clones"` — the directory is not a
repository-scoped subdirectory of the shared clone working directory. -/
theorem c6_counterexample_shared_clone_dir :
    dispatchUrls (runSearch ⟨true, 2, [⟨"a", "ua"⟩, ⟨"b", "ub"⟩]⟩
        (fun _ => false) ["t"] "acme" none none [] [] true false "clones"
        "results" false false true).2
      = ["ua", "ub"] ∧
    dispatchDirs (runSearch ⟨true, 2, [⟨"a", "ua"⟩, ⟨"b", "ub"⟩]⟩
        (fun _ => false) ["t"] "acme" none none [] [] true false "clones"
        "results" false false true).2
      = ["acme/clones", "acme/clones"] := by
  refine ⟨by decide, by decide⟩

/-- C6 (amended): every collaborator invocation carries the resolved search
terms, some repository's clone URL, the results directory,
`print_result=False`, `remove_cloned_dir=False`, `consolidate_log=True`,
and — instead of a repository-scoped subdirectory — the single directory
`os.path.join(organization, cloned_repos_path)`, shared by all
repositories of the run. -/
theorem c6_dispatch_arguments (o : Organization) (g : Github)
    (f : Repo → Bool) (sl : List String)
    (hdata : o.repository_data = [])
    (hspec : o.repository_specific_data = none)
    (e : Event) (he : e ∈ (o.search g f sl).2) (hd : e.isDispatch = true) :
    ∃ r : Repo,
      e = Event.dispatch (searchSL o sl) r.clone_url (clonedDir o)
        o.results_dir false false true := by
  by_cases hslE : searchSL o sl = []
  · rw [search_exit_empty o g f sl hslE] at he
    simp at he
  · cases hgf : g.found with
    | false =>
      rw [search_not_found_eq o g f sl hslE hgf] at he
      simp at he
      subst he
      simp [accountEvent, Event.isDispatch] at hd
    | true =>
      by_cases hmod : 0 < g.public_repos % 100
      · rw [search_dispatch_eq o g f sl hslE hgf hmod hdata] at he
        cases hh : ((selRepos o g).dropWhile fun r => !f r).head? with
        | some r₀ =>
          rw [hh] at he
          simp only [List.mem_append, List.mem_cons, List.mem_map] at he
          rcases he with (he | he) | ⟨r, hr, he⟩
          · subst he
            simp [accountEvent, Event.isDispatch] at hd
          · rcases pageEvents_mem o g 100 e he with ⟨p, rfl⟩
            simp [Event.isDispatch] at hd
          · exact ⟨r, by rw [← he]; rfl⟩
        | none =>
          rw [hh] at he
          simp only [List.mem_append, List.mem_cons, List.mem_map] at he
          rcases he with ((he | he) | ⟨r, hr, he⟩) | he
          · subst he
            simp [accountEvent, Event.isDispatch] at hd
          · rcases pageEvents_mem o g 100 e he with ⟨p, rfl⟩
            simp [Event.isDispatch] at hd
          · exact ⟨r, by rw [← he]; rfl⟩
          · rcases he with he | he <;>
              (split at he <;>
                simp only [List.mem_singleton, List.not_mem_nil] at he) <;>
              (subst he; simp [Event.isDispatch] at hd)
      · have hmz : g.public_repos % 100 = 0 := Nat.eq_zero_of_not_pos hmod
        rw [search_mod_zero_eq o g f sl hslE hgf hmz hspec] at he
        simp at he
        subst he
        simp [accountEvent, Event.isDispatch] at hd

/-- Witness for the amended C6 at a concrete dispatch event. -/
theorem c6_dispatch_arguments_witness :
    ∃ r : Repo,
      Event.dispatch ["t"] "ua" "acme/clones" "results" false false true
        = Event.dispatch
            (searchSL (initOrg ["t"] "acme" none none false true [] []
              "clones" "results" false) ["t"])
            r.clone_url
            (clonedDir (initOrg ["t"] "acme" none none false true [] []
              "clones" "results" false))
            (initOrg ["t"] "acme" none none false true [] [] "clones"
              "results" false).results_dir
            false false true :=
  c6_dispatch_arguments
    (initOrg ["t"] "acme" none none false true [] [] "clones" "results"
      false)
    ⟨true, 1, [⟨"a", "ua"⟩]⟩ (fun _ => false) ["t"] rfl rfl
    (Event.dispatch ["t"] "ua" "acme/clones" "results" false false true)
    (by decide) rfl

/-- C8: the results ledger lives at
`os.path.join(results_dir, organization, "results.json")` and is prepared
during construction, before any dispatch: `handle_results_file` (modelled
from the spec) deletes a pre-existing file when `consolidate` is false and
leaves it untouched when `consolidate` is true, the preparation event is in
every successful run's trace, and no dispatch event precedes the first
ledger-preparation event. -/
theorem c8_ledger_prepared_before_dispatch (g : Github) (f : Repo → Bool)
    (search_list : List String) (organization : String)
    (git_user git_password : Option String)
    (repos_to_skip repos_to_check : List String)
    (organization_flag consolidate_log : Bool)
    (cloned_repos_path results_dir : String)
    (print_result remove_cloned_dir fs_cloned_dir_exists : Bool)
    (hconf : ¬(repos_to_skip ≠ [] ∧ repos_to_check ≠ [])) :
    (∀ b, handle_results_file b false = false ∧
      handle_results_file b true = b) ∧
    Event.handleResultsFile
        (pathJoin (pathJoin results_dir organization) "results.json")
        consolidate_log
      ∈ (runSearch g f search_list organization git_user git_password
          repos_to_skip repos_to_check organization_flag consolidate_log
          cloned_repos_path results_dir print_result remove_cloned_dir
          fs_cloned_dir_exists).2 ∧
    ((runSearch g f search_list organization git_user git_password
        repos_to_skip repos_to_check organization_flag consolidate_log
        cloned_repos_path results_dir print_result remove_cloned_dir
        fs_cloned_dir_exists).2.takeWhile
          fun e => !e.isHandleResults).filter Event.isDispatch = [] := by
  rw [runSearch_ok _ _ _ _ _ _ _ _ _ _ _ _ _ _ _ hconf]
  refine ⟨fun b => ⟨rfl, rfl⟩, ?_, ?_⟩
  · exact List.mem_append_left _
      (by cases fs_cloned_dir_exists <;> simp [initEventList])
  · cases fs_cloned_dir_exists <;>
      simp [initEventList, List.takeWhile_cons, Event.isHandleResults,
        Event.isDispatch]

/-- Witness for C8 at a concrete input, the `consolidate` flag set and a
pre-existing ledger file present. -/
theorem c8_ledger_prepared_before_dispatch_witness :
    (handle_results_file true false = false ∧
      handle_results_file true true = true) ∧
    (handle_results_file false false = false ∧
      handle_results_file false true = false) ∧
    Event.handleResultsFile
        (pathJoin (pathJoin "results" "acme") "results.json") true
      ∈ (runSearch ⟨true, 1, [⟨"a", "ua"⟩]⟩ (fun _ => false) ["t"] "acme"
          none none [] [] true true "clones" "results" false false
          true).2 ∧
    ((runSearch ⟨true, 1, [⟨"a", "ua"⟩]⟩ (fun _ => false) ["t"] "acme"
        none none [] [] true true "clones" "results" false false
        true).2.takeWhile fun e => !e.isHandleResults).filter
        Event.isDispatch = [] := by
  have h := c8_ledger_prepared_before_dispatch ⟨true, 1, [⟨"a", "ua"⟩]⟩
    (fun _ => false) ["t"] "acme" none none [] [] true true "clones"
    "results" false false true (by decide)
  exact ⟨h.1 true, h.1 false, h.2.1, h.2.2⟩

/-- C1: the pagination is broken for exact multiples.  At
`repository_count = 2` and `page_size = 2` — where the claim requires
exactly `ceil(2/2) = 1` page, fetched as page 1 — the code issues NO page
request at all (the page loop sits inside the
`repository_number % per_page > 0` branch) and returns the instance
unchanged, `repository_specific_data` never assigned. -/
theorem c1_exact_multiple_fetches_no_pages :
    Organization.get_github_repo_list
        (initOrg ["t"] "acme" none none false true [] [] "clones" "results"
          false)
        ⟨true, 2, [⟨"a", "ua"⟩, ⟨"b", "ub"⟩]⟩ 2
      = (Except.ok (initOrg ["t"] "acme" none none false true [] []
          "clones" "results" false),
         [Event.httpGetAccount "orgs" "acme" Auth.noAuth]) ∧
    2 / 2 = 1 := by
  refine ⟨rfl, rfl⟩
